import Mathlib

/-!
Shallow embedding of `src/lib/client.js` of hackchain-client (a Node.js
client for the hackchain ledger service), together with theorems settling
the spec claims about it.

Conventions of the embedding:
* JavaScript exceptions thrown by `assert` become `Except.error msg` with
  the exact message string from the source.
* Node callbacks `callback(err, data)` become values of
  `Except ClientError BodyData` (or similar); a sequence of callback
  invocations is recorded as a list, so that "fires exactly once" is a
  statement about the list's length.
* JavaScript dynamic values are restricted to the shapes the claims
  exercise (`undefined`, numbers as `Int`, strings, arrays of strings);
  behaviour on that domain follows JS semantics (typeof checks,
  truthiness, loose equality against a number).
* External collaborator libraries (hackchain-core codec, bn.js,
  proof-of-work solver) are modelled from their documented behaviour where
  a claim depends on it (bn.js base-10 parsing), and abstracted as
  parameters or token-preserving functions where no claim does
  (render/hash of the binary codec, the script compiler, the solver).
-/

/-- JS value restricted to the shapes `parseTX` inspects: `undefined`
(an absent property), a number (JS numbers carrying integral values,
modelled as `Int`), a string, or an array of string tokens (script
arrays). -/
inductive JSVal where
  | undefined
  | num (n : Int)
  | str (s : String)
  | strArr (xs : List String)
deriving DecidableEq, Repr

/-- JS `typeof v === 'string'`. -/
def typeofIsString : JSVal → Bool
  | .str _ => true
  | _ => false

/-- JS `typeof v === 'number'`. -/
def typeofIsNumber : JSVal → Bool
  | .num _ => true
  | _ => false

/-- JS `Array.isArray(v)` on the embedded domain. -/
def jsIsArray : JSVal → Bool
  | .strArr _ => true
  | _ => false

/-- A JS field that must be an array of records: either a real array of
records (already field-projected) or any non-array value. Mirrors the
shapes `parseTX` meets in `data.inputs` / `data.outputs`. -/
inductive JSArr (α : Type) where
  | arr (xs : List α)
  | notArr
deriving DecidableEq, Repr

/-- Value of one hex digit, or `none` for a non-hex character. -/
def hexDigitVal (c : Char) : Option Nat :=
  if '0' ≤ c ∧ c ≤ '9' then some (c.toNat - 48)
  else if 'a' ≤ c ∧ c ≤ 'f' then some (c.toNat - 87)
  else if 'A' ≤ c ∧ c ≤ 'F' then some (c.toNat - 55)
  else none

/-- Node `Buffer.from(s, 'hex')` on a character list: consume pairs of hex
digits into bytes, stopping (without error) at the first invalid pair or
odd leftover character. -/
def hexDecodeList : List Char → List Nat
  | c1 :: c2 :: rest =>
    match hexDigitVal c1, hexDigitVal c2 with
    | some h, some l => (16 * h + l) :: hexDecodeList rest
    | _, _ => []
  | _ => []

/-- Node `Buffer.from(s, 'hex')`, as a list of byte values. -/
def hexDecode (s : String) : List Nat :=
  hexDecodeList s.data

/-- Lowercase hex digit for a value below 16. -/
def hexChar (n : Nat) : Char :=
  if n < 10 then Char.ofNat (48 + n) else Char.ofNat (87 + n)

/-- Node `Buffer.prototype.toString('hex')`: two lowercase hex digits per
byte. -/
def toHexStr (bs : List Nat) : String :=
  String.join (bs.map (fun b => String.mk [hexChar (b / 16 % 16), hexChar (b % 16)]))

/-- Digit value used by bn.js 4.x `parseBase`: `c = charCode - 48`; codes
at or above letter 'a' map via `c - 49 + 10`, codes at or above 'A' via
`c - 17 + 10`, anything else contributes `c` itself. No character is
rejected. -/
def bnDigitVal (c : Char) : Int :=
  let v : Int := (c.toNat : Int) - 48
  if 49 ≤ v then v - 49 + 10
  else if 17 ≤ v then v - 17 + 10
  else v

/-- Accumulating base-10 fold of bn.js `parseBase`. -/
def bnParseDigits (cs : List Char) : Int :=
  cs.foldl (fun r c => r * 10 + bnDigitVal c) 0

/-- bn.js 4.x `new BN(s, 10)`: a leading '-' sets the negative flag, the
rest is folded base 10 with `bnDigitVal`. The constructor never throws on
a string, so negative and non-digit strings all produce a value. -/
def bnFromBase10 (s : String) : Int :=
  match s.data with
  | '-' :: rest => - bnParseDigits rest
  | cs => bnParseDigits cs

/-- Script compiler `TX.Script.compileTextArray` of hackchain-core is an
external collaborator (spec section 4.2). No claim depends on the compiled
opcode encoding, and all scripts the claims exercise are well-formed, so
the compiled script is modelled as its token sequence. -/
def compileTextArray (tokens : List String) : List String :=
  tokens

/-- Version constant `TX.version` of the hackchain-core codec: a fixed
number the structured input must match. Its concrete value does not matter
to any claim; `1` stands for it here. -/
def TXversion : Int := 1

/-- One transaction input as `tx.input(hash, index, script)` records it:
decoded hash bytes, the index number as given, the compiled script. -/
structure TXInput where
  hash : List Nat
  index : Int
  script : List String
deriving DecidableEq, Repr

/-- One transaction output as `tx.output(value, script)` records it. -/
structure TXOutput where
  value : Int
  script : List String
deriving DecidableEq, Repr

/-- In-memory transaction assembled by `parseTX` (`new TX()` followed by
`tx.input` / `tx.output` calls, which append to the respective lists). -/
structure TX where
  inputs : List TXInput
  outputs : List TXOutput
deriving DecidableEq, Repr

/-- One raw input record of the structured `parseTX` input, fields as JS
values (`undefined` for a missing field). -/
structure RawInput where
  hash : JSVal
  index : JSVal
  script : JSVal
deriving DecidableEq, Repr

/-- One raw output record of the structured `parseTX` input. -/
structure RawOutput where
  value : JSVal
  script : JSVal
deriving DecidableEq, Repr

/-- Structured input to `parseTX`: `version` is `none` when the property
is absent (JS `undefined`) and `some n` when present as a number; `inputs`
and `outputs` are either arrays of records or non-array values. Element
records are always objects in this domain, so the source's
`input && typeof input === 'object'` asserts hold throughout it. -/
structure RawTX where
  version : Option Int
  inputs : JSArr RawInput
  outputs : JSArr RawOutput
deriving DecidableEq, Repr

/-- Node `assert.equal(data.version, TX.version)` uses JS loose equality.
On the embedded domain: an absent property (`undefined`) is loosely equal
to no number, a present number compares by value. -/
def versionLooseEq (v : Option Int) (c : Int) : Bool :=
  match v with
  | none => false
  | some n => n == c

/-- Per-element body of the `data.inputs` loop of `parseTX` (lines
152-168): assert `hash` is a string, `index` a number, `script` an array,
then build the `tx.input` record. Error strings are the exact assert
messages of the source. -/
def parseOneInput (inp : RawInput) : Except String TXInput :=
  match inp.hash with
  | .str h =>
    match inp.index with
    | .num idx =>
      match inp.script with
      | .strArr tokens =>
        .ok { hash := hexDecode h, index := idx, script := compileTextArray tokens }
      | _ => .error ("Client: `tx.inputs[].script` must be an Array")
    | _ => .error ("Client: `tx.inputs[].number` must be a number")
  | _ => .error ("Client: `tx.inputs[].hash` must be a hex string")

/-- Per-element body of the `data.outputs` loop of `parseTX` (lines
170-183): assert `value` is a string, `script` an array, then build the
`tx.output` record via `new BN(value, 10)`. -/
def parseOneOutput (outp : RawOutput) : Except String TXOutput :=
  match outp.value with
  | .str v =>
    match outp.script with
    | .strArr tokens =>
      .ok { value := bnFromBase10 v, script := compileTextArray tokens }
    | _ => .error ("Client: `tx.outputs[].script` must be an Array")
  | _ => .error ("Client: `tx.output[].value` must be a decimal string")

/-- Fail-fast traversal of a record list with a per-element parser,
mirroring the source's `for` loops whose asserts throw at the first bad
element. -/
def parseEach {α β : Type} (f : α → Except String β) : List α → Except String (List β)
  | [] => .ok []
  | x :: rest => do
    let b ← f x
    let bs ← parseEach f rest
    return b :: bs

/-- Embedding of `Client.prototype.parseTX` (lines 144-186). The version
assert, the two `Array.isArray` asserts (note the source's message for the
`outputs` check names `tx.inputs`), then both loops; on success the
assembled transaction. A thrown `AssertionError` is `Except.error` with
the source's message. -/
def parseTX (data : RawTX) : Except String TX :=
  if !(versionLooseEq data.version TXversion) then
    .error ("Client: version must be " ++ toString TXversion)
  else match data.inputs with
  | .notArr => .error ("Client: `tx.inputs` must be an Array")
  | .arr inputRecs =>
    match data.outputs with
    | .notArr => .error ("Client: `tx.inputs` must be an Array")
    | .arr outputRecs =>
      match parseEach parseOneInput inputRecs with
      | .error e => .error e
      | .ok ins =>
        match parseEach parseOneOutput outputRecs with
        | .error e => .error e
        | .ok outs => .ok { inputs := ins, outputs := outs }

/-- Error kinds a request can complete with (spec section 7), as the
callback receives them. -/
inductive ClientError where
  | decodeError
  | appError (msg : String)
  | statusError (code : Nat)
  | transportError
deriving DecidableEq, Repr

/-- Decoded JSON body of a response, restricted to the application-level
`error` field the completion logic inspects (`none` when the property is
absent). -/
structure BodyData where
  error : Option String
deriving DecidableEq, Repr

/-- JS truthiness of `data.error` on the embedded domain: absent or the
empty string is falsy, any other string is truthy. -/
def jsTruthyOptStr : Option String → Bool
  | none => false
  | some s => s ≠ ""

/-- State of one `Client.prototype.request` call: the `once` flag of the
completion guard, and the list of callback invocations made so far (each
an error or a decoded body). -/
structure ReqState where
  once : Bool
  calls : List (Except ClientError BodyData)
deriving Repr

/-- State before any event: guard not tripped, no callback invocation. -/
def initReqState : ReqState :=
  { once := false, calls := [] }

/-- The `done` closure (lines 36-43): if `once` is set do nothing,
otherwise set it and invoke the callback. -/
def reqDone (st : ReqState) (r : Except ClientError BodyData) : ReqState :=
  if st.once then st
  else { once := true, calls := st.calls ++ [r] }

/-- The `end` handler of the response (lines 63-78). `decode` is the
outcome of `JSON.parse` on the accumulated chunks. Decode failure and the
application `error` field go through `reqDone`; a status code outside
[200, 400) invokes the callback DIRECTLY (line 75 of the source calls
`callback`, not `done`), so it neither consults nor sets the guard;
otherwise the body is delivered through `reqDone`. -/
def onResponseEnd (st : ReqState) (decode : Except Unit BodyData) (status : Nat) : ReqState :=
  match decode with
  | .error _ => reqDone st (.error .decodeError)
  | .ok data =>
    if jsTruthyOptStr data.error then
      reqDone st (.error (.appError ((data.error).getD (""))))
    else if status < 200 ∨ 400 ≤ status then
      { st with calls := st.calls ++ [.error (.statusError status)] }
    else
      reqDone st (.ok data)

/-- The `error` handler (line 81): `req.once('error', done)`. -/
def onReqError (st : ReqState) : ReqState :=
  reqDone st (.error .transportError)

/-- Completion-relevant event during one request: a transport error on the
request object, or the response body arriving whole (with its `JSON.parse`
outcome and HTTP status code). -/
inductive ReqEvent where
  | transportError
  | responseEnd (decode : Except Unit BodyData) (status : Nat)
deriving Repr

/-- Effect of one event on the request state. -/
def stepReq (st : ReqState) : ReqEvent → ReqState
  | .transportError => onReqError st
  | .responseEnd decode status => onResponseEnd st decode status

/-- Completion state after a sequence of events, from the initial state. -/
def runReq (events : List ReqEvent) : ReqState :=
  events.foldl stepReq initReqState

/-- Transport selected by the constructor: the `http` or the `https`
module. -/
inductive TransportModule where
  | httpMod
  | httpsMod
deriving DecidableEq, Repr

/-- Result of Node's legacy `url.parse`: it exposes the scheme under
`protocol` (with trailing colon, e.g. "http:"), the host name under
`hostname`, the port under `port` (absent when the URI names none), and
host:port under `host`. It never defines a `scheme` property. Ports are
modelled as numbers. -/
structure ParsedUrl where
  protocol : Option String
  hostname : Option String
  port : Option Nat
  host : Option String
deriving DecidableEq, Repr

/-- JS property access `parsed.scheme`: legacy `url.parse` never sets a
`scheme` property, so the read yields `undefined` for every parsed URL. -/
def ParsedUrl.scheme (_ : ParsedUrl) : Option String :=
  none

/-- JS `a || b` for an optional number: absent or `0` (both falsy) fall
through to the default. -/
def jsOrNat (o : Option Nat) (d : Nat) : Nat :=
  match o with
  | none => d
  | some v => if v = 0 then d else v

/-- JS `a || b` for an optional integer (used by `getComplexity`). -/
def jsOrInt (o : Option Int) (d : Int) : Int :=
  match o with
  | none => d
  | some v => if v = 0 then d else v

/-- Client instance fields the claims touch (`this.prefix` is named
`pathPrefix` here because `prefix` is a Lean keyword; agent construction
is I/O glue and is not modelled). -/
structure Client where
  host : Option String
  module : TransportModule
  port : Nat
  pathPrefix : String
  version : String
deriving DecidableEq, Repr

/-- Embedding of the `Client` constructor (lines 18-32) applied to the
already-parsed URI; `hcVersion` stands for the external constant
`hackchain.version`. The source compares `parsed.scheme` (always
`undefined`) against "http:". -/
def mkClient (parsed : ParsedUrl) (hcVersion : String) : Client :=
  { host := parsed.hostname
    module := if parsed.scheme == some ("http:") then .httpMod else .httpsMod
    port := jsOrNat parsed.port (if parsed.scheme == some ("http:") then 80 else 443)
    pathPrefix := "/v1"
    version := hcVersion }

/-- Assoc-list update for one header: overwrite in place when the key
exists, append otherwise (the effect of `util._extend` per key). -/
def setHeader (hs : List (String × String)) (k v : String) : List (String × String) :=
  if hs.any (fun p => p.1 == k) then
    hs.map (fun p => if p.1 == k then (k, v) else p)
  else
    hs ++ [(k, v)]

/-- `util._extend(target, source)`: copy every property of `source` onto
`target`, overwriting existing keys. -/
def jsExtend (base extra : List (String × String)) : List (String × String) :=
  extra.foldl (fun acc p => setHeader acc p.1 p.2) base

/-- Outgoing request options built by `Client.prototype.request` (lines
45-57): method, prefix-extended path, and default headers (`User-Agent`,
`Content-Type`) extended with the caller's headers. -/
structure HttpRequest where
  method : String
  path : String
  headers : List (String × String)
deriving DecidableEq, Repr

/-- Request options as `Client.prototype.request` assembles them. -/
def buildRequest (c : Client) (method : String) (hdrs : List (String × String))
    (path : String) : HttpRequest :=
  { method := method
    path := c.pathPrefix ++ path
    headers := jsExtend
      [("User-Agent", "hackchain/client_v" ++ c.version),
       ("Content-Type", "application/json")] hdrs }

/-- Request issued by `spendTX` (lines 127-136): a POST through
`Client.prototype.post` to `'/tx/' + tx.hash().toString('hex')` with the
nonce as the `X-Proof-Of-Work` header. `hashFn` stands for the external
codec's `tx.hash()` (its byte output). -/
def spendTXRequest (c : Client) (hashFn : TX → List Nat) (tx : TX) (nonce : String) :
    HttpRequest :=
  buildRequest c ("POST") [("X-Proof-Of-Work", nonce)] ("/tx/" ++ toHexStr (hashFn tx))

/-- JSON body of the `spendTX` POST (line 130): `{tx: hexstring}` where the
hex string renders the transaction through the external codec `render`. -/
def spendTXBody (render : TX → List Nat) (tx : TX) : List (String × String) :=
  [("tx", toHexStr (render tx))]

/-- Completion continuation of `spendTX` (lines 136-141): an error is
propagated, a successful post discards the response data and hands the
caller the very transaction object `spendTX` was given. -/
def spendTXDone (tx : TX) (r : Except ClientError BodyData) : Except ClientError TX :=
  match r with
  | .error e => .error e
  | .ok _ => .ok tx

/-- Results `spendTX` reports to its caller when the underlying request
sees the given events: each callback invocation of the request layer,
mapped through the `spendTX` continuation. -/
def spendTXResults (tx : TX) (events : List ReqEvent) : List (Except ClientError TX) :=
  (runReq events).calls.map (spendTXDone tx)

/-- Info record returned by `GET /` as `getComplexity` reads it:
`powComplexity` models the JSON property `proof-of-work-complexity`
(`none` when the service omits it). -/
structure InfoData where
  powComplexity : Option Int
deriving DecidableEq, Repr

/-- Embedding of `Client.prototype.getComplexity` (lines 196-203) as a
function of the `getInfo` outcome: an error is propagated, otherwise
`info['proof-of-work-complexity'] || 0`. -/
def getComplexity (infoResult : Except ClientError InfoData) : Except ClientError Int :=
  match infoResult with
  | .error e => .error e
  | .ok info => .ok (jsOrInt info.powComplexity 0)

/-- Embedding of `Client.prototype.getNonce` (lines 205-215) as a function
of the `getInfo` outcome and the external solver: a `getComplexity` error
is propagated (the error branch returns before the solver is constructed),
otherwise the token is the complexity, a colon, and the hex rendering of
`solver.solve(complexity)`. -/
def getNonce (infoResult : Except ClientError InfoData) (solve : Int → List Nat) :
    Except ClientError String :=
  match getComplexity infoResult with
  | .error e => .error e
  | .ok complexity => .ok (toString complexity ++ ":" ++ toHexStr (solve complexity))

/-- Claim C1 (code bug): the completion callback does NOT fire exactly
once on every completion path. The status-code path (line 75) invokes
`callback` directly instead of the guarded `done`, so when a transport
error is reported and a response with a status outside [200, 400) also
arrives for the same request, the callback fires twice: once with the
transport error through the guard, then again with the status error past
it. -/
theorem request_statusPath_double_fire :
    (runReq [ReqEvent.transportError,
             ReqEvent.responseEnd (.ok { error := none }) 500]).calls =
      [.error ClientError.transportError, .error (ClientError.statusError 500)] := by
  rfl

/-- Claim C2 (confirmed): a decoded body with a non-empty `error` field
completes the request through the guard with an application error carrying
that message, whatever the HTTP status code is — the status code does not
appear in the outcome at all, so the error-field check (line 71) takes
precedence over the status-code check (line 74), and a 200 response with
an error body fails rather than succeeds. -/
theorem errorField_precedes_status (st : ReqState) (data : BodyData) (msg : String)
    (status : Nat) (hmsg : data.error = some msg) (hne : msg ≠ "") :
    onResponseEnd st (.ok data) status = reqDone st (.error (.appError msg)) := by
  simp [onResponseEnd, jsTruthyOptStr, hmsg, hne]

/-- Witness for C2: HTTP status 200 with body error "rejected" completes
with the application error, not success. -/
theorem errorField_precedes_status_witness :
    onResponseEnd initReqState (.ok { error := some ("rejected") }) 200 =
      reqDone initReqState (.error (.appError ("rejected"))) :=
  errorField_precedes_status initReqState { error := some ("rejected") } ("rejected") 200
    rfl (by decide)

/-- Claim C3, counterexample: structured input WITHOUT a version field is
rejected on version grounds, contradicting the claim that the version
check only applies when the field is present — `assert.equal(undefined,
TX.version)` fails, since `undefined` is not loosely equal to a number. -/
theorem parseTX_missing_version_rejected :
    parseTX { version := none, inputs := .arr [], outputs := .arr [] } =
      .error ("Client: version must be 1") := by
  rfl

/-- Claim C3, amended (corrected): `parseTX` rejects structured input
whose version field differs from the expected constant `TX.version` with
the version validation error; the check applies to absent versions too,
so any input whose version is not exactly the constant — missing field
included — is rejected. -/
theorem parseTX_version_guard (v : Option Int) (ins : JSArr RawInput)
    (outs : JSArr RawOutput) (h : v ≠ some TXversion) :
    parseTX { version := v, inputs := ins, outputs := outs } =
      .error ("Client: version must be " ++ toString TXversion) := by
  have hv : versionLooseEq v TXversion = false := by
    cases v with
    | none => rfl
    | some n =>
      simp only [versionLooseEq, beq_eq_false_iff_ne, ne_eq]
      intro hn
      exact h (by rw [hn])
  simp [parseTX, hv]

/-- Witness for C3's amended theorem: version 2 is rejected with the
version message. -/
theorem parseTX_version_guard_witness :
    parseTX { version := some 2, inputs := .arr [], outputs := .arr [] } =
      .error ("Client: version must be " ++ toString TXversion) :=
  parseTX_version_guard (some 2) (.arr []) (.arr []) (by decide)

/-- Claim C7 (code bug): a non-array `outputs` field is rejected, but the
assert message of line 148 names `tx.inputs`, so the error does NOT
identify the `outputs` field — the input here has a well-formed `inputs`
array and a non-array `outputs`, yet the reported message is the
`tx.inputs` one. -/
theorem parseTX_outputs_error_misnamed :
    parseTX { version := some 1, inputs := .arr [], outputs := .notArr } =
      .error ("Client: `tx.inputs` must be an Array") := by
  rfl

/-- Claim C4 (confirmed): legacy `url.parse` exposes the scheme under
`protocol` and never defines `scheme`, so `parsed.scheme === 'http:'` is
false for every parsed URI; the constructor therefore always selects the
HTTPS transport, and when the URI names no port it always uses 443 — also
for URIs whose scheme is `http:`. -/
theorem client_always_https (parsed : ParsedUrl) (hcVersion : String) :
    (mkClient parsed hcVersion).module = TransportModule.httpsMod ∧
    (parsed.port = none → (mkClient parsed hcVersion).port = 443) := by
  refine ⟨rfl, fun hp => ?_⟩
  simp [mkClient, ParsedUrl.scheme, jsOrNat, hp]

/-- Witness for C4: a URI parsed with protocol "http:" and no port still
gets the HTTPS module and port 443. -/
theorem client_always_https_witness :
    (mkClient { protocol := some ("http:"), hostname := some ("example.org"),
                port := none, host := some ("example.org") } ("2.0.0")).module =
        TransportModule.httpsMod ∧
    (mkClient { protocol := some ("http:"), hostname := some ("example.org"),
                port := none, host := some ("example.org") } ("2.0.0")).port = 443 :=
  ⟨(client_always_https _ _).1, (client_always_https _ _).2 rfl⟩

/-- Claim C5, counterexample: the output value string "-5" — not a valid
non-negative decimal integer — is NOT rejected: `parseTX` accepts it,
because the source only asserts `typeof value === 'string'` and
`new BN("-5", 10)` parses a negative value without throwing. -/
theorem parseTX_negative_value_accepted :
    parseTX { version := some 1, inputs := .arr [],
              outputs := .arr [{ value := .str ("-5"), script := .strArr [] }] } =
      .ok { inputs := [], outputs := [{ value := -5, script := [] }] } := by
  rfl

/-- Claim C5, amended (corrected): an output's `value` is accepted exactly
when it is a string — the only enforced check is `typeof value ===
'string'`; every string, negative or non-digit ones included, is then fed
to the bn.js base-10 parse, which never rejects, while any non-string is
rejected with the decimal-string validation message. -/
theorem parseTX_value_string_only (v : JSVal) :
    parseTX { version := some TXversion, inputs := .arr [],
              outputs := .arr [{ value := v, script := .strArr [] }] } =
      (match v with
       | .str s => .ok { inputs := [], outputs := [{ value := bnFromBase10 s, script := [] }] }
       | _ => .error ("Client: `tx.output[].value` must be a decimal string")) := by
  cases v <;> rfl

/-- Claim C6, counterexample: an input with index -1 — a negative number —
is NOT rejected: `parseTX` accepts it, because the source only asserts
`typeof index === 'number'`. -/
theorem parseTX_negative_index_accepted :
    parseTX { version := some 1,
              inputs := .arr [{ hash := .str ("ab"), index := .num (-1),
                                script := .strArr [] }],
              outputs := .arr [] } =
      .ok { inputs := [{ hash := [171], index := -1, script := [] }], outputs := [] } := by
  rfl

/-- Claim C6, amended (corrected): an input's `index` is accepted exactly
when it is a number — the only enforced check is `typeof index ===
'number'`, which does not enforce non-negativity (nor integrality), so
negative indexes pass, while any non-number is rejected with the index
validation message (which itself names `tx.inputs[].number`). -/
theorem parseTX_index_number_only (idx : JSVal) :
    parseTX { version := some TXversion,
              inputs := .arr [{ hash := .str (""), index := idx, script := .strArr [] }],
              outputs := .arr [] } =
      (match idx with
       | .num n => .ok { inputs := [{ hash := [], index := n, script := [] }], outputs := [] }
       | _ => .error ("Client: `tx.inputs[].number` must be a number")) := by
  cases idx <;> rfl

/-- Claim C8 (confirmed): `spendTX` issues a POST whose path is the prefix
plus `/tx/` plus the hex of the transaction's own hash, whose headers are
the client defaults extended with the nonce under `X-Proof-Of-Work`, and
whose JSON body binds `tx` to the hex rendering of the transaction; and
when the underlying request completes successfully (decodable body with no
error field, status inside [200, 400)), the caller receives exactly the
transaction object `spendTX` was given. -/
theorem spendTX_request_and_result (c : Client) (render hashFn : TX → List Nat)
    (tx : TX) (nonce : String) (data : BodyData) (status : Nat)
    (hlo : 200 ≤ status) (hhi : status < 400) (herr : data.error = none) :
    (spendTXRequest c hashFn tx nonce).method = ("POST") ∧
    (spendTXRequest c hashFn tx nonce).path =
      c.pathPrefix ++ (("/tx/") ++ toHexStr (hashFn tx)) ∧
    (spendTXRequest c hashFn tx nonce).headers =
      [(("User-Agent"), ("hackchain/client_v") ++ c.version),
       (("Content-Type"), ("application/json")),
       (("X-Proof-Of-Work"), nonce)] ∧
    spendTXBody render tx = [(("tx"), toHexStr (render tx))] ∧
    spendTXResults tx [.responseEnd (.ok data) status] = [.ok tx] := by
  refine ⟨rfl, rfl, rfl, rfl, ?_⟩
  have hst : ¬(status < 200 ∨ 400 ≤ status) := by omega
  simp [spendTXResults, runReq, stepReq, onResponseEnd, jsTruthyOptStr, herr, hst,
        reqDone, initReqState, spendTXDone]

/-- Client fixture for the C8 witness. -/
def sampleClient : Client :=
  { host := some ("example.org"), module := .httpsMod, port := 443,
    pathPrefix := ("/v1"), version := ("2.0.0") }

/-- Codec-render stand-in for the C8 witness. -/
def sampleRender : TX → List Nat := fun _ => [1, 2]

/-- Codec-hash stand-in for the C8 witness. -/
def sampleHashFn : TX → List Nat := fun _ => [255, 0]

/-- Transaction fixture for the C8 witness. -/
def emptyTX : TX := { inputs := [], outputs := [] }

/-- Witness for C8 at concrete fixtures: a 200 response with error-free
body hands the same transaction object back. -/
theorem spendTX_request_and_result_witness :
    (spendTXRequest sampleClient sampleHashFn emptyTX ("4:abcd")).method = ("POST") ∧
    (spendTXRequest sampleClient sampleHashFn emptyTX ("4:abcd")).path =
      sampleClient.pathPrefix ++ (("/tx/") ++ toHexStr (sampleHashFn emptyTX)) ∧
    (spendTXRequest sampleClient sampleHashFn emptyTX ("4:abcd")).headers =
      [(("User-Agent"), ("hackchain/client_v") ++ sampleClient.version),
       (("Content-Type"), ("application/json")),
       (("X-Proof-Of-Work"), ("4:abcd"))] ∧
    spendTXBody sampleRender emptyTX = [(("tx"), toHexStr (sampleRender emptyTX))] ∧
    spendTXResults emptyTX [.responseEnd (.ok { error := none }) 200] = [.ok emptyTX] :=
  spendTX_request_and_result sampleClient sampleRender sampleHashFn emptyTX ("4:abcd")
    { error := none } 200 (by decide) (by decide) rfl

/-- Claim C9 (confirmed): when `getComplexity` fails, `getNonce`
propagates exactly that error, and its outcome does not depend on the
solver at all (the solver is never invoked on that path); when
`getComplexity` yields a complexity, `getNonce` yields exactly the string
complexity, colon, hex of the solver's result at that complexity. -/
theorem getNonce_composition :
    (∀ (infoResult : Except ClientError InfoData) (solve solve2 : Int → List Nat)
        (e : ClientError), getComplexity infoResult = .error e →
        getNonce infoResult solve = .error e ∧
        getNonce infoResult solve = getNonce infoResult solve2) ∧
    (∀ (infoResult : Except ClientError InfoData) (solve : Int → List Nat) (c : Int),
        getComplexity infoResult = .ok c →
        getNonce infoResult solve = .ok (toString c ++ (":") ++ toHexStr (solve c))) := by
  constructor
  · intro ir s s2 e h
    constructor <;> simp [getNonce, h]
  · intro ir s c h
    simp [getNonce, h]

/-- Witness for C9: a transport error propagates; complexity 4 with a
solver returning bytes ab cd yields "4:abcd". -/
theorem getNonce_composition_witness :
    getNonce (.error .transportError) (fun _ => [0]) = .error ClientError.transportError ∧
    getNonce (.ok { powComplexity := some 4 }) (fun _ => [171, 205]) = .ok ("4:abcd") :=
  ⟨(getNonce_composition.1 (.error .transportError) (fun _ => [0]) (fun _ => [0])
      .transportError rfl).1,
   getNonce_composition.2 (.ok { powComplexity := some 4 }) (fun _ => [171, 205]) 4 rfl⟩

/-- Claim C10 (confirmed): `getComplexity` propagates a `getInfo` error,
returns the service-reported complexity when the info record carries one,
and returns 0 when the record omits the field (the JS `|| 0` default also
maps a reported 0 to 0, which is the reported value itself). -/
theorem getComplexity_spec :
    (∀ e : ClientError, getComplexity (.error e) = .error e) ∧
    (∀ (info : InfoData) (c : Int), info.powComplexity = some c →
        getComplexity (.ok info) = .ok c) ∧
    (∀ info : InfoData, info.powComplexity = none → getComplexity (.ok info) = .ok 0) := by
  refine ⟨fun e => rfl, fun info c h => ?_, fun info h => ?_⟩
  · have hz : jsOrInt (some c) 0 = c := by
      show (if c = 0 then 0 else c) = c
      split <;> omega
    simp [getComplexity, h, hz]
  · simp [getComplexity, jsOrInt, h]

/-- Witness for C10: a decode error propagates, complexity 5 is returned
as-is, an absent field defaults to 0. -/
theorem getComplexity_spec_witness :
    getComplexity (.error .decodeError) = .error ClientError.decodeError ∧
    getComplexity (.ok { powComplexity := some 5 }) = .ok 5 ∧
    getComplexity (.ok { powComplexity := none }) = .ok 0 :=
  ⟨getComplexity_spec.1 .decodeError,
   getComplexity_spec.2.1 { powComplexity := some 5 } 5 rfl,
   getComplexity_spec.2.2 { powComplexity := none } rfl⟩
